import Mathlib

/-!
Verification of the QUIC session engine (node_quic_session.cc).

This file gives a shallow embedding of the QuicSession state machine:
the session flags, statistics, crypto-level buffers, stream table and
the send/receive dispatch routines, translated from the C++ source.
External collaborators (the ngtcp2 transport library, the TLS provider
and the UDP socket) are represented by an explicit oracle that supplies
the return values of their calls; the theorems quantify over all
oracle values.  CHECK(...) assertions in the source are modelled by
returning `none` (process abort); DCHECK(...) assertions are compiled
out in release builds and are modelled as no-ops.
-/

namespace Quic

/-- Role of the session endpoint (NGTCP2_CRYPTO_SIDE_SERVER / CLIENT). -/
inductive Side
  | server
  | client
deriving DecidableEq, Repr

/-- State of the underlying ngtcp2 connection with respect to the
close handshake: `normal` (neither), `closing`
(ngtcp2_conn_is_in_closing_period) or `draining`
(ngtcp2_conn_is_in_draining_period).  In ngtcp2 these are distinct
values of the single connection state, so they are mutually
exclusive. -/
inductive Period
  | normal
  | closing
  | draining
deriving DecidableEq, Repr

/-- Crypto level (ngtcp2_crypto_level): initial, handshake or
application. -/
inductive CryptoLevel
  | initial
  | handshake
  | application
deriving DecidableEq, Repr

/-- Error family of the last-error descriptor (QUIC_ERROR_*). -/
inductive ErrorFamily
  | transport
  | application
  | crypto
  | session
deriving DecidableEq, Repr

/-- Origin of a stream: which endpoint initiated it
(QuicStreamOrigin::QUIC_STREAM_CLIENT / QUIC_STREAM_SERVER). -/
inductive StreamOrigin
  | client
  | server
deriving DecidableEq, Repr

/-- Direction of a stream (QuicStreamDirection). -/
inductive StreamDirection
  | bidirectional
  | unidirectional
deriving DecidableEq, Repr

/-- Error codes of the ngtcp2 library used by the session code.  The
concrete numeric values follow the ngtcp2 error enum of the vendored
library; only their sign and mutual distinctness matter to the
session logic. -/
def NGTCP2_NO_ERROR : Int := 0

def NGTCP2_ERR_STREAM_DATA_BLOCKED : Int := -210

def NGTCP2_ERR_PKT_NUM_EXHAUSTED : Int := -216

def NGTCP2_ERR_STREAM_SHUT_WR : Int := -221

def NGTCP2_ERR_STREAM_NOT_FOUND : Int := -222

def NGTCP2_ERR_RECV_VERSION_NEGOTIATION : Int := -229

def NGTCP2_ERR_CLOSING : Int := -230

def NGTCP2_ERR_DRAINING : Int := -231

def NGTCP2_ERR_INTERNAL : Int := -503

/-- The session statistics record (session_stats struct).  Timestamps
are uv_hrtime values in nanoseconds; counters are byte or event
counts. -/
structure SessionStats where
  created_at : Nat := 0
  handshake_start_at : Nat := 0
  handshake_continue_at : Nat := 0
  handshake_completed_at : Nat := 0
  handshake_acked_at : Nat := 0
  handshake_send_at : Nat := 0
  session_received_at : Nat := 0
  session_sent_at : Nat := 0
  bytes_received : Nat := 0
  bytes_sent : Nat := 0
  streams_in_count : Nat := 0
  streams_out_count : Nat := 0
  bidi_stream_count : Nat := 0
  uni_stream_count : Nat := 0
  keyupdate_count : Nat := 0
deriving DecidableEq, Repr

/-- The three append-only crypto-level outbound buffers
(handshake_[0..2], one QuicBuffer per ngtcp2_crypto_level).  Each
buffer is the queue of outbound handshake bytes still awaiting
acknowledgement, oldest first. -/
structure CryptoBufs where
  initialData : List Nat := []
  handshakeData : List Nat := []
  appData : List Nat := []
deriving DecidableEq, Repr

/-- Read the buffer at a crypto level (handshake_[level]). -/
def CryptoBufs.get (b : CryptoBufs) : CryptoLevel → List Nat
  | .initial => b.initialData
  | .handshake => b.handshakeData
  | .application => b.appData

/-- Replace the buffer at a crypto level. -/
def CryptoBufs.set (b : CryptoBufs) : CryptoLevel → List Nat → CryptoBufs
  | .initial, d => { b with initialData := d }
  | .handshake, d => { b with handshakeData := d }
  | .application, d => { b with appData := d }

/-- Modelled from the spec: `QuicBuffer::Consume` (declared in the
quic buffer header, which is not among the sources here).  The spec
states: "Consuming N bytes on ack frees the oldest N bytes at that
level", so consuming drops the given number of bytes from the front
of the queue. -/
def QuicBuffer.Consume (buf : List Nat) (n : Nat) : List Nat :=
  buf.drop n

/-- A stream owned by the session.  The stream class itself lives in
node_quic_stream.cc (not among the sources); the fields here are the
ones the session code reads: id, origin, direction, the writability
flags and the outbound chunk queue (chunk lengths in bytes) that
DrainInto copies into a scatter-gather vector. -/
structure QuicStream where
  id : Int
  origin : StreamOrigin
  direction : StreamDirection
  was_ever_writable : Bool := true
  writable : Bool := true
  fin_sent : Bool := false
  queue : List Nat := []
deriving DecidableEq, Repr

/-- The QuicSession state: lifecycle flags, the ngtcp2 connection
period, statistics, crypto buffers, stream table (in insertion
order), the send and transmit byte queues, the stored
CONNECTION_CLOSE packet and the last-error descriptor. -/
structure QuicSession where
  side : Side
  destroyed : Bool := false
  closing : Bool := false
  silent_close : Bool := false
  graceful_closing : Bool := false
  in_ngtcp2_callback : Bool := false
  period : Period := .normal
  stats : SessionStats := {}
  closeAttempts : Nat := 0
  connectionCloseLimit : Nat := 0
  bufs : CryptoBufs := {}
  streams : List QuicStream := []
  sendbufLen : Nat := 0
  txbufLen : Nat := 0
  connClosebufSize : Nat := 0
  lastError : ErrorFamily × Int := (.transport, 0)
  initialConnectionClose : Int := NGTCP2_NO_ERROR
  idleTimer : Option Nat := none
  retransmitTimer : Option Nat := none
  remoteAddr : Nat := 0
  onSocket : Bool := true
deriving DecidableEq, Repr

/-- Observable outputs of the session: packets handed to the socket
send path and events surfaced to the listener (JavaScript callbacks
and ngtcp2 stream instructions). -/
inductive Event
  | packetSent (label : String) (len : Nat)
  | sessionClose (code : Int)
  | sessionSilentClose (statelessReset : Bool) (code : Int)
  | handshakeDone
  | streamReady (id : Int)
  | streamData (id : Int) (datalen : Nat) (fin : Bool)
  | streamClose (id : Int) (code : Int)
  | streamReset (id : Int) (finalSize : Nat) (code : Int)
  | extendMaxOffset (n : Nat)
  | shutdownStream (id : Int) (code : Int)
deriving DecidableEq, Repr

/-- The packet events among a list of events: the outbound payloads
handed to the socket. -/
def sentPackets (evs : List Event) : List Event :=
  evs.filter fun e =>
    match e with
    | .packetSent _ _ => true
    | _ => false

/-- Locate the QuicStream with the given id or return none
(QuicSession::FindStream). -/
def QuicSession.findStream (s : QuicSession) (id : Int) : Option QuicStream :=
  s.streams.find? (fun st => st.id = id)

/-- Replace the stream with the given id in the stream table. -/
def QuicSession.updateStream (s : QuicSession) (id : Int)
    (f : QuicStream → QuicStream) : QuicSession :=
  { s with streams := s.streams.map fun st => if st.id = id then f st else st }

/-- Set the last-error descriptor.  The setter is declared in the
session header (not among the sources); the spec describes the
session's "error descriptor (family, code)" recorded by SetLastError. -/
def QuicSession.SetLastError (s : QuicSession) (family : ErrorFamily)
    (code : Int) : QuicSession :=
  { s with lastError := (family, code) }

/-- SetLastError() with its default argument
{QUIC_ERROR_SESSION, NGTCP2_NO_ERROR}. -/
def QuicSession.SetLastErrorDefault (s : QuicSession) : QuicSession :=
  s.SetLastError .session NGTCP2_NO_ERROR

/-- QuicSession::AckedCryptoOffset.  On a destroyed session the
acknowledgement is ignored; otherwise the given number of bytes is
consumed (freed) from the handshake buffer at the given level, and
the handshake-acked timestamp is updated (`now` is uv_hrtime). -/
def QuicSession.AckedCryptoOffset (s : QuicSession) (level : CryptoLevel)
    (datalen : Nat) (now : Nat) : QuicSession :=
  if s.destroyed then s
  else
    { s with
      bufs := s.bufs.set level (QuicBuffer.Consume (s.bufs.get level) datalen),
      stats := { s.stats with handshake_acked_at := now } }

/-- QuicSession::AddStream: appends the stream to the stream table
and updates the stream statistics.  Note the unconditional
streams_out_count increment after the origin-based switch, exactly as
in the source. -/
def QuicSession.AddStream (s : QuicSession) (stream : QuicStream) :
    QuicSession :=
  let s1 := { s with streams := s.streams ++ [stream] }
  let s2 : QuicSession :=
    match stream.origin with
    | .client =>
      if s1.side = .server then
        { s1 with stats :=
          { s1.stats with streams_in_count := s1.stats.streams_in_count + 1 } }
      else
        { s1 with stats :=
          { s1.stats with streams_out_count := s1.stats.streams_out_count + 1 } }
    | .server =>
      if s1.side = .server then
        { s1 with stats :=
          { s1.stats with streams_out_count := s1.stats.streams_out_count + 1 } }
      else
        { s1 with stats :=
          { s1.stats with streams_in_count := s1.stats.streams_in_count + 1 } }
  let s3 :=
    { s2 with stats :=
      { s2.stats with streams_out_count := s2.stats.streams_out_count + 1 } }
  match stream.direction with
  | .bidirectional =>
    { s3 with stats :=
      { s3.stats with bidi_stream_count := s3.stats.bidi_stream_count + 1 } }
  | .unidirectional =>
    { s3 with stats :=
      { s3.stats with uni_stream_count := s3.stats.uni_stream_count + 1 } }

/-- Modelled from the spec: construction of a new QuicStream
(QuicStream::New in node_quic_stream.cc, not among the sources).  The
spec says the stream id "encodes origin {local, remote} and direction
{bidi, uni}"; per QUIC the low id bit selects the initiator and the
second bit the direction. -/
def mkStream (id : Int) : QuicStream :=
  { id := id
    origin := if id % 2 = 0 then .client else .server
    direction := if id % 4 ≤ 1 then .bidirectional else .unidirectional }

/-- QuicSession::CreateStream: asserts the session is not destroyed,
not gracefully closing and not closing (CHECK), creates the stream
object (which adds itself to the session) and notifies the listener. -/
def QuicSession.CreateStream (s : QuicSession) (id : Int) :
    Option (QuicSession × List Event) :=
  if s.destroyed ∨ s.graceful_closing ∨ s.closing then none
  else some (s.AddStream (mkStream id), [Event.streamReady id])

/-- QuicSession::ReceiveStreamData.  A zero-length frame without fin
is dropped immediately; a destroyed session ignores the frame.
Otherwise the connection-wide max offset is extended by the chunk
length on scope exit (on every remaining path), an unknown stream is
shut down while gracefully closing, dropped when empty, or created
and notified. -/
def QuicSession.ReceiveStreamData (s : QuicSession) (id : Int) (fin : Bool)
    (datalen : Nat) : Option (QuicSession × List Event) :=
  if fin = false ∧ datalen = 0 then some (s, [])
  else if s.destroyed then some (s, [])
  else
    let ext := Event.extendMaxOffset datalen
    match s.findStream id with
    | some _ => some (s, [Event.streamData id datalen fin, ext])
    | none =>
      if s.graceful_closing then
        some (s, [Event.shutdownStream id NGTCP2_ERR_CLOSING, ext])
      else if datalen = 0 then some (s, [ext])
      else
        match s.CreateStream id with
        | none => none
        | some (s1, e1) =>
          some (s1, e1 ++ [Event.streamData id datalen fin, ext])

/-- QuicSession::UpdateIdleTimer: re-arms the single-shot idle timer.
The timeout is the number of whole milliseconds until the idle expiry
reported by ngtcp2 (`expiry` and `now` are uint64 nanosecond values;
the subtraction wraps modulo 2^64 as in C++), forced to 1 ms when the
expiry is already past or the difference is under a millisecond. -/
def QuicSession.UpdateIdleTimer (s : QuicSession) (now expiry : Nat) :
    QuicSession :=
  let timeout := ((expiry + 18446744073709551616 - now) % 18446744073709551616)
      / 1000000
  let timeout := if expiry < now ∨ timeout = 0 then 1 else timeout
  { s with idleTimer := some timeout }

/-- QuicSession::ScheduleRetransmit: same computation as the idle
timer, applied to the retransmission timer with the loss-detection
expiry reported by ngtcp2. -/
def QuicSession.ScheduleRetransmit (s : QuicSession) (now expiry : Nat) :
    QuicSession :=
  let interval := ((expiry + 18446744073709551616 - now) % 18446744073709551616)
      / 1000000
  let interval := if expiry < now ∨ interval = 0 then 1 else interval
  { s with retransmitTimer := some interval }

/-- QuicSession::SilentClose: asserts the closing flag has not been
set yet (CHECK), sets the silent-close and closing flags, and
notifies the listener without serializing any frame. -/
def QuicSession.SilentClose (s : QuicSession) (statelessReset : Bool) :
    Option (QuicSession × List Event) :=
  if s.closing then none
  else
    some ({ s with silent_close := true, closing := true },
      [Event.sessionSilentClose statelessReset s.lastError.2])

/-- QuicSession::ImmediateClose: asserts the closing flag has not
been set yet (CHECK), sets the closing flag, and notifies the
listener of the close with the last-error code. -/
def QuicSession.ImmediateClose (s : QuicSession) :
    Option (QuicSession × List Event) :=
  if s.closing then none
  else some ({ s with closing := true }, [Event.sessionClose s.lastError.2])

/-- The anonymous-namespace Consume helper of node_quic_session.cc:
advances a scatter-gather vector (represented by its entry lengths)
past the given number of consumed bytes. -/
def Consume : List Nat → Nat → List Nat
  | [], _ => []
  | v :: rest, len => if len < v then (v - len) :: rest else Consume rest (len - v)

/-- The anonymous-namespace IsEmpty helper: the vector holds no
remaining bytes. -/
def IsEmpty (vec : List Nat) : Bool :=
  vec.all (· = 0)

/-- A single session-facing effect raised by the transport library
from inside ngtcp2_conn_read_pkt: each constructor names the
QuicSession callback the library invokes, with the data it passes. -/
inductive CbOp
  | ackedCryptoOffset (level : CryptoLevel) (datalen : Nat) (now : Nat)
  | receiveCryptoData (now : Nat)
  | writeHandshake (level : CryptoLevel) (data : List Nat) (now : Nat)
  | receiveStreamData (id : Int) (fin : Bool) (datalen : Nat)
  | streamOpen (id : Int)
  | streamClose (id : Int) (code : Int)
  | streamReset (id : Int) (finalSize : Nat) (code : Int)
  | removeStream (id : Int)
  | handshakeCompleted (now : Nat)
  | updateKey
  | silentClose (statelessReset : Bool)
  | destroy
deriving DecidableEq, Repr

/-- The oracle supplying the results of every external call the
session makes: successive ngtcp2_conn_write_pkt results, successive
ngtcp2_conn_writev_stream results (packet size and consumed stream
bytes), successive socket send results, successive
write_connection_close results, the outcome of ngtcp2_conn_read_pkt
(its error code, the callbacks it raises and the connection state it
leaves behind), clock and expiry values, the flow-control budget and
the path address reported by packet serialization. -/
structure Oracle where
  writePkt : List Int := []
  writevStream : List (Int × Nat) := []
  sockErr : List Int := []
  closeFn : List Int := []
  readPktErr : Int := 0
  readPktOps : List CbOp := []
  readPktPeriod : Period := .normal
  now : Nat := 0
  idleExpiry : Nat := 0
  connExpiry : Nat := 0
  maxDataLeft : Nat := 1
  pathRemote : Nat := 0
deriving DecidableEq, Repr

/-- Oracle with every list empty and every numeric answer zero. -/
def defaultOracle : Oracle := { maxDataLeft := 0 }

/-- Consume the next Socket()->SendPacket result (0 when the supply
is exhausted: the send succeeded). -/
def Oracle.nextSockErr (o : Oracle) : Int × Oracle :=
  match o.sockErr with
  | [] => (0, o)
  | e :: rest => (e, { o with sockErr := rest })

/-- Consume the next SelectCloseFn (ngtcp2 write_connection_close)
result. -/
def Oracle.nextCloseFn (o : Oracle) : Int × Oracle :=
  match o.closeFn with
  | [] => (0, o)
  | e :: rest => (e, { o with closeFn := rest })

/-- QuicSession::SendPacket: moves the contents of sendbuf_ to the
tail of txbuf_ (counting them into bytes_sent), and if there is
anything to transmit, stamps the send time, schedules the retransmit
timer and hands the transmit queue to the socket.  Asserts the
session is not destroyed and not draining (CHECK). -/
def QuicSession.SendPacket (s : QuicSession) (o : Oracle) (label : String) :
    Option (QuicSession × Oracle × List Event × Bool) :=
  if s.destroyed then none
  else if s.period = .draining then none
  else
    let s1 :=
      if 0 < s.sendbufLen then
        { s with
          stats := { s.stats with bytes_sent := s.stats.bytes_sent + s.sendbufLen },
          txbufLen := s.txbufLen + s.sendbufLen,
          sendbufLen := 0 }
      else s
    if s1.txbufLen = 0 then some (s1, o, [], true)
    else
      let s2 := { s1 with stats := { s1.stats with session_sent_at := o.now } }
      let s3 := s2.ScheduleRetransmit o.now o.connExpiry
      let (err, o1) := o.nextSockErr
      if err ≠ 0 then some (s3.SetLastError .session err, o1, [], false)
      else
        some ({ s3 with txbufLen := 0 }, o1,
          [Event.packetSent label s3.txbufLen], true)

/-- The serialization loop of QuicSession::WritePackets, recursing
over the successive ngtcp2_conn_write_pkt results: zero ends the
loop, packet-number exhaustion silent-closes and fails, any other
negative records the error and fails, and a positive count pushes the
packet and transmits it.  Returns the unconsumed oracle entries. -/
def writePktLoop (label : String) :
    List Int → QuicSession → Oracle →
    Option (QuicSession × Oracle × List Event × Bool × List Int)
  | [], s, o => some (s, o, [], true, [])
  | nwrite :: rest, s, o =>
    if nwrite = 0 then some (s, o, [], true, rest)
    else if nwrite = NGTCP2_ERR_PKT_NUM_EXHAUSTED then
      match s.SilentClose false with
      | none => none
      | some (s1, e1) => some (s1, o, e1, false, rest)
    else if nwrite < 0 then
      some (s.SetLastError .session nwrite, o, [], false, rest)
    else
      let s1 := { s with sendbufLen := s.sendbufLen + nwrite.toNat,
                         remoteAddr := o.pathRemote }
      match s1.SendPacket o label with
      | none => none
      | some (s2, o2, e2, false) => some (s2, o2, e2, false, rest)
      | some (s2, o2, e2, true) =>
        match writePktLoop label rest s2 o2 with
        | none => none
        | some (s3, o3, e3, b, leftover) =>
          some (s3, o3, e2 ++ e3, b, leftover)

/-- The closing-period tail of QuicServerSession::SendConnectionClose:
update the idle timer, assert the stored CONNECTION_CLOSE packet is
non-empty (CHECK_GT), cancel the send buffer, push the stored packet
(without consuming it, so it can be sent again) and transmit. -/
def serverSendClosebuf (s : QuicSession) (o : Oracle) :
    Option (QuicSession × Oracle × List Event × Bool) :=
  let s1 := s.UpdateIdleTimer o.now o.idleExpiry
  if s1.connClosebufSize = 0 then none
  else
    let s2 := { s1 with sendbufLen := s1.connClosebufSize }
    s2.SendPacket o "server connection close"

/-- QuicServerSession::StartClosingPeriod: stops the retransmit
timer, updates the idle timer, cancels the send buffer and serializes
the CONNECTION_CLOSE packet into conn_closebuf_ through the
transport library; once written, the connection is in the closing
period.  Packet-number exhaustion silent-closes; other negative
results record the error. -/
def QuicServerSession.StartClosingPeriod (s : QuicSession) (o : Oracle) :
    Option (QuicSession × Oracle × List Event × Bool) :=
  if s.destroyed then some (s, o, [], false)
  else if s.period = .closing then some (s, o, [], true)
  else
    let s1 := { s with retransmitTimer := none }
    let s2 := s1.UpdateIdleTimer o.now o.idleExpiry
    let s3 := { s2 with sendbufLen := 0 }
    let (nwrite, o1) := o.nextCloseFn
    if nwrite < 0 then
      if nwrite = NGTCP2_ERR_PKT_NUM_EXHAUSTED then
        match s3.SilentClose false with
        | none => none
        | some (s4, e4) => some (s4, o1, e4, false)
      else some (s3.SetLastError .session nwrite, o1, [], false)
    else
      some ({ s3 with connClosebufSize := nwrite.toNat, period := .closing },
        o1, [], true)

/-- The tail of QuicClientSession::SendConnectionClose after the
optional WritePackets flush: serialize the CONNECTION_CLOSE through
the transport library (entering the closing period), push it and
transmit; a negative serialization result records the error and
fails. -/
def clientCloseTail (s : QuicSession) (o : Oracle) (acc : List Event) :
    Option (QuicSession × Oracle × List Event × Bool) :=
  let (nwrite, o1) := o.nextCloseFn
  if nwrite < 0 then some (s.SetLastError .session nwrite, o1, acc, false)
  else
    let s1 := { s with sendbufLen := s.sendbufLen + nwrite.toNat,
                       period := .closing }
    match s1.SendPacket o1 "client connection close" with
    | none => none
    | some (s2, o2, e2, b) => some (s2, o2, acc ++ e2, b)

mutual

/-- Virtual dispatch of QuicSession::SendConnectionClose to the
server or client override.  The fuel argument bounds the bounded
mutual recursion with WritePackets (the source recursion depth is at
most two, guarded by the closing-period checks); every entry point
calls it with ample fuel. -/
def SendConnectionCloseF : Nat → QuicSession → Oracle →
    Option (QuicSession × Oracle × List Event × Bool)
  | 0, _, _ => none
  | Nat.succ fuel, s, o =>
    match s.side with
    | .server => serverSendConnectionCloseF fuel s o
    | .client => clientSendConnectionCloseF fuel s o

/-- QuicServerSession::SendConnectionClose: asserts it is not inside
an ngtcp2 callback (CHECK); sends nothing while draining or silently
closing; outside the closing period first flushes pending packets and
starts the closing period; then re-sends the stored CONNECTION_CLOSE
packet. -/
def serverSendConnectionCloseF : Nat → QuicSession → Oracle →
    Option (QuicSession × Oracle × List Event × Bool)
  | 0, _, _ => none
  | Nat.succ fuel, s, o =>
    if s.in_ngtcp2_callback then none
    else if s.period = .draining ∨ s.silent_close then some (s, o, [], true)
    else if s.period ≠ .closing then
      match WritePacketsF fuel "server connection close - write packets" s o with
      | none => none
      | some (s1, o1, e1, false) => some (s1, o1, e1, false)
      | some (s1, o1, e1, true) =>
        match QuicServerSession.StartClosingPeriod s1 o1 with
        | none => none
        | some (s2, o2, e2, false) => some (s2, o2, e1 ++ e2, false)
        | some (s2, o2, e2, true) =>
          match serverSendClosebuf s2 o2 with
          | none => none
          | some (s3, o3, e3, b) => some (s3, o3, e1 ++ e2 ++ e3, b)
    else serverSendClosebuf s o

/-- QuicClientSession::SendConnectionClose: asserts it is not inside
an ngtcp2 callback (CHECK); sends nothing while draining or silently
closing; updates the idle timer, cancels the send buffer, flushes
pending packets when not yet in the closing period, then serializes
and transmits the CONNECTION_CLOSE. -/
def clientSendConnectionCloseF : Nat → QuicSession → Oracle →
    Option (QuicSession × Oracle × List Event × Bool)
  | 0, _, _ => none
  | Nat.succ fuel, s, o =>
    if s.in_ngtcp2_callback then none
    else if s.period = .draining ∨ s.silent_close then some (s, o, [], true)
    else
      let s1 := s.UpdateIdleTimer o.now o.idleExpiry
      let s2 := { s1 with sendbufLen := 0 }
      if s2.period ≠ .closing then
        match WritePacketsF fuel "client connection close - write packets" s2 o with
        | none => none
        | some (s3, o3, e3, false) => some (s3, o3, e3, false)
        | some (s3, o3, e3, true) => clientCloseTail s3 o3 e3
      else clientCloseTail s2 o []

/-- QuicSession::WritePackets: asserts it is not inside an ngtcp2
callback and the session is not destroyed (CHECK); sends nothing
while draining; in the closing period only the CONNECTION_CLOSE may
be sent; otherwise serializes pending non-stream packets in a loop
and transmits each. -/
def WritePacketsF : Nat → String → QuicSession → Oracle →
    Option (QuicSession × Oracle × List Event × Bool)
  | 0, _, _, _ => none
  | Nat.succ fuel, label, s, o =>
    if s.in_ngtcp2_callback then none
    else if s.destroyed then none
    else if s.period = .draining then some (s, o, [], true)
    else if s.period = .closing then SendConnectionCloseF fuel s o
    else
      match writePktLoop label o.writePkt s { o with writePkt := [] } with
      | none => none
      | some (s1, o1, e1, b, leftover) =>
        some (s1, { o1 with writePkt := leftover }, e1, b)

end

/-- QuicSession::SendConnectionClose at the entry fuel. -/
def QuicSession.SendConnectionClose (s : QuicSession) (o : Oracle) :
    Option (QuicSession × Oracle × List Event × Bool) :=
  SendConnectionCloseF 4 s o

/-- QuicSession::WritePackets at the entry fuel. -/
def QuicSession.WritePackets (s : QuicSession) (label : String) (o : Oracle) :
    Option (QuicSession × Oracle × List Event × Bool) :=
  WritePacketsF 4 label s o

/-- QuicSession::HandleError: cancels the send buffer and attempts a
CONNECTION_CLOSE; if that fails, records an internal error and
performs an immediate close. -/
def QuicSession.HandleError (s : QuicSession) (o : Oracle) :
    Option (QuicSession × Oracle × List Event) :=
  let s1 := { s with sendbufLen := 0 }
  match SendConnectionCloseF 4 s1 o with
  | none => none
  | some (s2, o2, e2, true) => some (s2, o2, e2)
  | some (s2, o2, e2, false) =>
    let s3 := s2.SetLastError .session NGTCP2_ERR_INTERNAL
    match s3.ImmediateClose with
    | none => none
    | some (s4, e4) => some (s4, o2, e2 ++ e4)

/-- QuicSession::Destroy: a destroyed session returns immediately.
Otherwise, when not inside an ngtcp2 callback and not in the closing
or draining period, one best-effort CONNECTION_CLOSE send is made;
the stream table is asserted empty (CHECK); the destroyed flag is
set, the closing flags cleared, both timers stopped and the session
removed from its socket. -/
def QuicSession.Destroy (s : QuicSession) (o : Oracle) :
    Option (QuicSession × Oracle × List Event) :=
  if s.destroyed then some (s, o, [])
  else
    let step : Option (QuicSession × Oracle × List Event) :=
      if ¬s.in_ngtcp2_callback ∧ s.period ≠ .closing ∧ s.period ≠ .draining then
        match SendConnectionCloseF 4 s.SetLastErrorDefault o with
        | none => none
        | some (s1, o1, e1, _) => some (s1, o1, e1)
      else some (s, o, [])
    match step with
    | none => none
    | some (s1, o1, e1) =>
      if s1.streams ≠ [] then none
      else
        some ({ s1 with destroyed := true, closing := false,
                        graceful_closing := false,
                        idleTimer := none, retransmitTimer := none,
                        onSocket := false }, o1, e1)

/-- The serialization loop of QuicSession::SendStreamData, recursing
over the successive ngtcp2_conn_writev_stream results.  A zero result
stops with success (congestion limited); packet-number exhaustion
silent-closes and fails; STREAM_DATA_BLOCKED, STREAM_SHUT_WR and
STREAM_NOT_FOUND stop with success; any other negative records the
error and fails; a positive packet size commits the consumed stream
bytes, pushes and transmits the packet, and loops until the vector is
drained, marking fin sent when the stream is no longer writable. -/
def sendStreamDataLoop (sid : Int) (wr : Bool) :
    List (Int × Nat) → List Nat → QuicSession → Oracle →
    Option (QuicSession × Oracle × List Event × Bool × List (Int × Nat))
  | [], _, s, o => some (s, o, [], true, [])
  | (nwrite, ndatalen) :: rest, v, s, o =>
    if nwrite = 0 then some (s, o, [], true, rest)
    else if nwrite = NGTCP2_ERR_PKT_NUM_EXHAUSTED then
      match s.SilentClose false with
      | none => none
      | some (s1, e1) => some (s1, o, e1, false, rest)
    else if nwrite = NGTCP2_ERR_STREAM_DATA_BLOCKED ∨
            nwrite = NGTCP2_ERR_STREAM_SHUT_WR ∨
            nwrite = NGTCP2_ERR_STREAM_NOT_FOUND then
      some (s, o, [], true, rest)
    else if nwrite < 0 then
      some (s.SetLastError .session nwrite, o, [], false, rest)
    else
      let v1 := if 0 < ndatalen then Consume v ndatalen else v
      let s1 :=
        if 0 < ndatalen then
          s.updateStream sid fun st => { st with queue := Consume st.queue ndatalen }
        else s
      let s2 := { s1 with sendbufLen := s1.sendbufLen + nwrite.toNat,
                          remoteAddr := o.pathRemote }
      match s2.SendPacket o "stream data" with
      | none => none
      | some (s3, o3, e3, false) => some (s3, o3, e3, false, rest)
      | some (s3, o3, e3, true) =>
        if IsEmpty v1 then
          let s4 :=
            if wr then s3
            else s3.updateStream sid fun st => { st with fin_sent := true }
          some (s4, o3, e3, true, rest)
        else
          match sendStreamDataLoop sid wr rest v1 s3 o3 with
          | none => none
          | some (s5, o5, e5, b, leftover) =>
            some (s5, o5, e3 ++ e5, b, leftover)

/-- QuicSession::SendStreamData: asserts it is not inside an ngtcp2
callback (CHECK).  Nothing is serialized when the session is
destroyed, the stream was never writable, its fin was already sent,
the session is draining or closing, or the connection-level flow
window is exhausted; nor when the drained vector is empty while the
stream is still writable.  Otherwise runs the serialization loop. -/
def QuicSession.SendStreamData (s : QuicSession) (sid : Int) (o : Oracle) :
    Option (QuicSession × Oracle × List Event × Bool) :=
  if s.in_ngtcp2_callback then none
  else
    match s.findStream sid with
    | none => some (s, o, [], true)
    | some st =>
      if s.destroyed ∨ ¬st.was_ever_writable ∨ st.fin_sent ∨
         s.period = .draining ∨ s.period = .closing ∨ o.maxDataLeft = 0 then
        some (s, o, [], true)
      else if st.queue = [] ∧ st.writable then some (s, o, [], true)
      else
        match sendStreamDataLoop sid st.writable o.writevStream st.queue s
            { o with writevStream := [] } with
        | none => none
        | some (s1, o1, e1, b, leftover) =>
          some (s1, { o1 with writevStream := leftover }, e1, b)

/-- How the per-stream loop of SendPendingData ended: every stream
was serialized, the loop stopped early because the session state
changed, or a stream failed. -/
inductive PhaseExit
  | done
  | early
  | errored
deriving DecidableEq, Repr

/-- The per-stream phase of QuicSession::SendPendingData: serializes
each stream of the table in order, stopping early with success when
the session enters the draining or closing period or is destroyed,
and stopping with an error when a stream fails. -/
def sendStreamsPhase :
    List Int → QuicSession → Oracle →
    Option (QuicSession × Oracle × List Event × PhaseExit)
  | [], s, o => some (s, o, [], .done)
  | sid :: rest, s, o =>
    match s.SendStreamData sid o with
    | none => none
    | some (s1, o1, e1, false) => some (s1, o1, e1, .errored)
    | some (s1, o1, e1, true) =>
      if s1.period = .draining ∨ s1.period = .closing ∨ s1.destroyed then
        some (s1, o1, e1, .early)
      else
        match sendStreamsPhase rest s1 o1 with
        | none => none
        | some (s2, o2, e2, ex) => some (s2, o2, e1 ++ e2, ex)

/-- QuicSession::SendPendingData: does nothing when inside an ngtcp2
callback, destroyed, draining, or a server in the closing period.
Otherwise flushes the send buffer, serializes each stream of the
table in insertion order, then serializes any remaining non-stream
packets; a failure at any phase is routed to HandleError. -/
def QuicSession.SendPendingData (s : QuicSession) (o : Oracle) :
    Option (QuicSession × Oracle × List Event) :=
  if s.in_ngtcp2_callback ∨ s.destroyed ∨ s.period = .draining ∨
     (s.side = .server ∧ s.period = .closing) then
    some (s, o, [])
  else
    match s.SendPacket o "pending session data" with
    | none => none
    | some (s1, o1, e1, false) =>
      match s1.HandleError o1 with
      | none => none
      | some (s2, o2, e2) => some (s2, o2, e1 ++ e2)
    | some (s1, o1, e1, true) =>
      match sendStreamsPhase (s1.streams.map QuicStream.id) s1 o1 with
      | none => none
      | some (s2, o2, e2, .errored) =>
        match s2.HandleError o2 with
        | none => none
        | some (s3, o3, e3) => some (s3, o3, e1 ++ e2 ++ e3)
      | some (s2, o2, e2, .early) => some (s2, o2, e1 ++ e2)
      | some (s2, o2, e2, .done) =>
        match WritePacketsF 4 "pending session data - write packets" s2 o2 with
        | none => none
        | some (s3, o3, e3, false) =>
          match s3.HandleError o3 with
          | none => none
          | some (s4, o4, e4) => some (s4, o4, e1 ++ e2 ++ e3 ++ e4)
        | some (s3, o3, e3, true) => some (s3, o3, e1 ++ e2 ++ e3)

/-- Modelled from the spec: `IncrementConnectionCloseAttempts`
(declared in the session header, which is not among the sources).
The spec says each packet received while closing makes the session
"increment close-attempt counter". -/
def QuicSession.IncrementConnectionCloseAttempts (s : QuicSession) :
    QuicSession :=
  { s with closeAttempts := s.closeAttempts + 1 }

/-- Modelled from the spec: `ShouldAttemptConnectionClose` (declared
in the session header, which is not among the sources).  The spec
says the CONNECTION_CLOSE is re-sent "only if the attempt counter is
below a threshold (bounded resend prevents amplification)"; the
threshold is the connectionCloseLimit field. -/
def QuicSession.ShouldAttemptConnectionClose (s : QuicSession) : Bool :=
  s.closeAttempts < s.connectionCloseLimit

/-- The state effect of QuicSession::ReceiveCryptoData on the session
(a destroyed session rejects the data; otherwise the handshake-start
timestamp is recorded once and the continue timestamp on every
chunk); the TLS progression itself lives in the providers. -/
def QuicSession.ReceiveCryptoData (s : QuicSession) (now : Nat) : QuicSession :=
  if s.destroyed then s
  else
    let st := s.stats
    let st :=
      if st.handshake_start_at = 0 then { st with handshake_start_at := now }
      else st
    { s with stats := { st with handshake_continue_at := now } }

/-- QuicSession::WriteHandshake: a destroyed session ignores the
bytes; otherwise the send timestamp is recorded, a copy of the data
is submitted to the transport library and pushed onto the
crypto-level buffer. -/
def QuicSession.WriteHandshake (s : QuicSession) (level : CryptoLevel)
    (data : List Nat) (now : Nat) : QuicSession :=
  if s.destroyed then s
  else
    { s with
      stats := { s.stats with handshake_send_at := now },
      bufs := s.bufs.set level (s.bufs.get level ++ data) }

/-- QuicSession::StreamOpen: no resources are committed; while
gracefully closing the stream is shut down with the closing code. -/
def QuicSession.StreamOpen (s : QuicSession) (id : Int) :
    QuicSession × List Event :=
  if s.graceful_closing then
    (s, [Event.shutdownStream id NGTCP2_ERR_CLOSING])
  else (s, [])

/-- QuicSession::StreamClose: ignored on a destroyed session or an
unknown stream; otherwise the listener is notified. -/
def QuicSession.StreamClose (s : QuicSession) (id : Int) (code : Int) :
    QuicSession × List Event :=
  if s.destroyed then (s, [])
  else
    match s.findStream id with
    | none => (s, [])
    | some _ => (s, [Event.streamClose id code])

/-- QuicSession::StreamReset: ignored on a destroyed session or an
unknown stream; otherwise the listener is notified. -/
def QuicSession.StreamReset (s : QuicSession) (id : Int) (finalSize : Nat)
    (code : Int) : QuicSession × List Event :=
  if s.destroyed then (s, [])
  else
    match s.findStream id with
    | none => (s, [])
    | some _ => (s, [Event.streamReset id finalSize code])

/-- QuicSession::RemoveStream: erases the stream from the table, then
tells the transport library to shut down and discard its state. -/
def QuicSession.RemoveStream (s : QuicSession) (id : Int) :
    QuicSession × List Event :=
  ({ s with streams := s.streams.filter fun st => st.id ≠ id },
   [Event.shutdownStream id NGTCP2_NO_ERROR])

/-- The state effect of QuicSession::HandshakeCompleted: stamp the
completion time and notify the listener (the TLS snapshot data lives
in the providers). -/
def QuicSession.HandshakeCompleted (s : QuicSession) (now : Nat) :
    QuicSession × List Event :=
  ({ s with stats := { s.stats with handshake_completed_at := now } },
   [Event.handshakeDone])

/-- QuicSession::UpdateKey: refused on a destroyed session; otherwise
the key-update counter is incremented and new secrets are installed
through the providers (the key-update-in-progress flag is set and
cleared within the call). -/
def QuicSession.UpdateKey (s : QuicSession) : QuicSession :=
  if s.destroyed then s
  else
    { s with stats :=
      { s.stats with keyupdate_count := s.stats.keyupdate_count + 1 } }

/-- Apply one transport-library callback to the session. -/
def applyCbOp (s : QuicSession) : CbOp → Option (QuicSession × List Event)
  | .ackedCryptoOffset level datalen now =>
    some (s.AckedCryptoOffset level datalen now, [])
  | .receiveCryptoData now => some (s.ReceiveCryptoData now, [])
  | .writeHandshake level data now => some (s.WriteHandshake level data now, [])
  | .receiveStreamData id fin datalen => s.ReceiveStreamData id fin datalen
  | .streamOpen id => some (s.StreamOpen id)
  | .streamClose id code => some (s.StreamClose id code)
  | .streamReset id finalSize code => some (s.StreamReset id finalSize code)
  | .removeStream id => some (s.RemoveStream id)
  | .handshakeCompleted now => some (s.HandshakeCompleted now)
  | .updateKey => some (s.UpdateKey, [])
  | .silentClose statelessReset => s.SilentClose statelessReset
  | .destroy =>
    match s.Destroy defaultOracle with
    | none => none
    | some (s1, _, e1) => some (s1, e1)

/-- Apply the callbacks raised during one ngtcp2_conn_read_pkt in
order. -/
def applyCbOps : QuicSession → List CbOp → Option (QuicSession × List Event)
  | s, [] => some (s, [])
  | s, op :: rest =>
    match applyCbOp s op with
    | none => none
    | some (s1, e1) =>
      match applyCbOps s1 rest with
      | none => none
      | some (s2, e2) => some (s2, e1 ++ e2)

/-- QuicSession::ReceivePacket: a destroyed session processes no more
packets; otherwise the receive timestamp is stamped and the packet is
handed to ngtcp2_conn_read_pkt, whose callbacks run with the ngtcp2
callback scope marked; DRAINING and RECV_VERSION_NEGOTIATION results
are dropped, any other negative result records the error and fails. -/
def QuicSession.ReceivePacket (s : QuicSession) (o : Oracle) :
    Option (QuicSession × Oracle × List Event × Bool) :=
  if s.destroyed then some (s, o, [], true)
  else
    let s1 :=
      { s with stats := { s.stats with session_received_at := o.now } }
    match applyCbOps { s1 with in_ngtcp2_callback := true } o.readPktOps with
    | none => none
    | some (s2, e2) =>
      let s3 := { s2 with in_ngtcp2_callback := s.in_ngtcp2_callback,
                          period := o.readPktPeriod }
      if o.readPktErr < 0 then
        if o.readPktErr = NGTCP2_ERR_DRAINING ∨
           o.readPktErr = NGTCP2_ERR_RECV_VERSION_NEGOTIATION then
          some (s3, o, e2, true)
        else some (s3.SetLastError .session o.readPktErr, o, e2, false)
      else some (s3, o, e2, true)

/-- QuicSession::Receive: a destroyed session drops the packet with
failure.  The received bytes are counted; in the closing period the
close-attempt counter is incremented and the CONNECTION_CLOSE re-sent
only while attempts remain; in the draining period the packet is
silently dropped with success.  Otherwise the peer address is
updated, the packet is processed, errors are routed to HandleError or
answered with an immediate CONNECTION_CLOSE, destruction or draining
entered during processing is honoured, and pending data plus the idle
timer are refreshed. -/
def QuicSession.Receive (s : QuicSession) (nread : Nat) (addr : Nat)
    (o : Oracle) : Option (QuicSession × Oracle × List Event × Bool) :=
  if s.destroyed then some (s, o, [], false)
  else
    let s1 :=
      { s with stats :=
        { s.stats with bytes_received := s.stats.bytes_received + nread } }
    if s1.period = .closing then
      let s2 := s1.IncrementConnectionCloseAttempts
      if ¬s2.ShouldAttemptConnectionClose then some (s2, o, [], false)
      else SendConnectionCloseF 4 s2 o
    else if s1.period = .draining then some (s1, o, [], true)
    else
      let s2 := { s1 with remoteAddr := addr }
      match s2.ReceivePacket o with
      | none => none
      | some (s3, o3, e3, false) =>
        if s3.initialConnectionClose = NGTCP2_NO_ERROR then
          match s3.HandleError o3 with
          | none => none
          | some (s4, o4, e4) => some (s4, o4, e3 ++ e4, false)
        else
          let s4 := s3.SetLastError .session s3.initialConnectionClose
          match SendConnectionCloseF 4 s4 o3 with
          | none => none
          | some (s5, o5, e5, _) => some (s5, o5, e3 ++ e5, true)
      | some (s3, o3, e3, true) =>
        if s3.destroyed then
          if s3.period ≠ .closing ∧ s3.period ≠ .draining then
            match SendConnectionCloseF 4 s3.SetLastErrorDefault o3 with
            | none => none
            | some (s4, o4, e4, _) => some (s4, o4, e3 ++ e4, true)
          else some (s3, o3, e3, true)
        else if s3.period = .draining then
          match s3.SilentClose false with
          | none => none
          | some (s4, e4) => some (s4, o3, e3 ++ e4, true)
        else
          match s3.SendPendingData o3 with
          | none => none
          | some (s4, o4, e4) =>
            let s5 := s4.UpdateIdleTimer o4.now o4.idleExpiry
            some (s5, o4, e3 ++ e4, true)

/-! Preservation facts: none of the send-path or callback routines
touches the close-attempt counter or the received-byte counter; both
are written only at the places Receive writes them. -/

/-- The close-attempt counter and the received-byte counter agree
between two session states. -/
def pres (s t : QuicSession) : Prop :=
  t.closeAttempts = s.closeAttempts ∧
  t.stats.bytes_received = s.stats.bytes_received

theorem pres_refl (s : QuicSession) : pres s s := ⟨rfl, rfl⟩

theorem pres_trans {s t u : QuicSession} (h1 : pres s t) (h2 : pres t u) :
    pres s u :=
  ⟨h2.1.trans h1.1, h2.2.trans h1.2⟩

theorem pres_SetLastError (s : QuicSession) (f : ErrorFamily) (c : Int) :
    pres s (s.SetLastError f c) := ⟨rfl, rfl⟩

theorem pres_UpdateIdleTimer (s : QuicSession) (now expiry : Nat) :
    pres s (s.UpdateIdleTimer now expiry) := ⟨rfl, rfl⟩

theorem pres_ScheduleRetransmit (s : QuicSession) (now expiry : Nat) :
    pres s (s.ScheduleRetransmit now expiry) := ⟨rfl, rfl⟩

theorem pres_SilentClose {s t : QuicSession} {b : Bool} {e : List Event}
    (h : s.SilentClose b = some (t, e)) : pres s t := by
  simp only [QuicSession.SilentClose] at h
  repeat' split at h
  all_goals try exact Option.noConfusion h
  all_goals simp only [Option.some.injEq, Prod.mk.injEq] at h
  all_goals obtain ⟨h1, -⟩ := h
  all_goals subst h1
  all_goals exact ⟨rfl, rfl⟩

theorem pres_ImmediateClose {s t : QuicSession} {e : List Event}
    (h : s.ImmediateClose = some (t, e)) : pres s t := by
  simp only [QuicSession.ImmediateClose] at h
  repeat' split at h
  all_goals try exact Option.noConfusion h
  all_goals simp only [Option.some.injEq, Prod.mk.injEq] at h
  all_goals obtain ⟨h1, -⟩ := h
  all_goals subst h1
  all_goals exact ⟨rfl, rfl⟩

theorem pres_SendPacket {s t : QuicSession} {o o2 : Oracle} {e : List Event}
    {b : Bool} {label : String} (h : s.SendPacket o label = some (t, o2, e, b)) :
    pres s t := by
  simp only [QuicSession.SendPacket] at h
  repeat' split at h
  all_goals try exact Option.noConfusion h
  all_goals simp only [Option.some.injEq, Prod.mk.injEq] at h
  all_goals obtain ⟨h1, -⟩ := h
  all_goals subst h1
  all_goals exact ⟨rfl, rfl⟩

theorem pres_SendPacket_from {s0 s t : QuicSession} {o o2 : Oracle}
    {e : List Event} {b : Bool} {label : String}
    (h : s.SendPacket o label = some (t, o2, e, b)) (h0 : pres s0 s) :
    pres s0 t :=
  pres_trans h0 (pres_SendPacket h)

theorem pres_SilentClose_from {s0 s t : QuicSession} {b : Bool}
    {e : List Event} (h : s.SilentClose b = some (t, e)) (h0 : pres s0 s) :
    pres s0 t :=
  pres_trans h0 (pres_SilentClose h)

theorem pres_writePktLoop (label : String) :
    ∀ (calls : List Int) (s : QuicSession) (o : Oracle) (t : QuicSession)
      (o2 : Oracle) (e : List Event) (b : Bool) (leftover : List Int),
      writePktLoop label calls s o = some (t, o2, e, b, leftover) →
      pres s t := by
  intro calls
  induction calls with
  | nil =>
    intro s o t o2 e b leftover h
    simp only [writePktLoop, Option.some.injEq, Prod.mk.injEq] at h
    obtain ⟨ht, -⟩ := h
    subst ht
    exact pres_refl _
  | cons nwrite rest ih =>
    intro s o t o2 e b leftover h
    simp only [writePktLoop] at h
    split at h
    · simp only [Option.some.injEq, Prod.mk.injEq] at h
      obtain ⟨ht, -⟩ := h
      subst ht
      exact pres_refl _
    · split at h
      · split at h
        · exact Option.noConfusion h
        · rename_i hsc
          simp only [Option.some.injEq, Prod.mk.injEq] at h
          obtain ⟨ht, -⟩ := h
          subst ht
          exact pres_SilentClose hsc
      · split at h
        · simp only [Option.some.injEq, Prod.mk.injEq] at h
          obtain ⟨ht, -⟩ := h
          subst ht
          exact pres_SetLastError _ _ _
        · split at h
          · exact Option.noConfusion h
          · rename_i hsp
            simp only [Option.some.injEq, Prod.mk.injEq] at h
            obtain ⟨ht, -⟩ := h
            subst ht
            exact pres_SendPacket_from hsp ⟨rfl, rfl⟩
          · rename_i hsp
            split at h
            · exact Option.noConfusion h
            · rename_i hrec
              simp only [Option.some.injEq, Prod.mk.injEq] at h
              obtain ⟨ht, -⟩ := h
              subst ht
              exact pres_trans (pres_SendPacket_from hsp ⟨rfl, rfl⟩)
                (ih _ _ _ _ _ _ _ hrec)

theorem pres_from {s0 s t : QuicSession} (h : pres s t) (h0 : pres s0 s) :
    pres s0 t :=
  pres_trans h0 h

theorem pres_serverSendClosebuf {s t : QuicSession} {o o2 : Oracle}
    {e : List Event} {b : Bool}
    (h : serverSendClosebuf s o = some (t, o2, e, b)) : pres s t := by
  simp only [serverSendClosebuf] at h
  split at h
  · exact Option.noConfusion h
  · exact pres_SendPacket_from h ⟨rfl, rfl⟩

theorem pres_StartClosingPeriod {s t : QuicSession} {o o2 : Oracle}
    {e : List Event} {b : Bool}
    (h : QuicServerSession.StartClosingPeriod s o = some (t, o2, e, b)) :
    pres s t := by
  simp only [QuicServerSession.StartClosingPeriod] at h
  repeat' split at h
  all_goals try exact Option.noConfusion h
  all_goals simp only [Option.some.injEq, Prod.mk.injEq] at h
  all_goals obtain ⟨ht, -⟩ := h
  all_goals subst ht
  all_goals first
    | exact pres_refl _
    | exact ⟨rfl, rfl⟩
    | (rename_i hq; exact pres_SilentClose_from hq ⟨rfl, rfl⟩)

theorem pres_clientCloseTail {s t : QuicSession} {o o2 : Oracle}
    {acc e : List Event} {b : Bool}
    (h : clientCloseTail s o acc = some (t, o2, e, b)) : pres s t := by
  simp only [clientCloseTail] at h
  repeat' split at h
  all_goals try exact Option.noConfusion h
  all_goals simp only [Option.some.injEq, Prod.mk.injEq] at h
  all_goals obtain ⟨ht, -⟩ := h
  all_goals subst ht
  all_goals first
    | exact ⟨rfl, rfl⟩
    | (rename_i hq; exact pres_SendPacket_from hq ⟨rfl, rfl⟩)

theorem pres_closeFuel : ∀ fuel : Nat,
    (∀ s o t o2 e b, SendConnectionCloseF fuel s o = some (t, o2, e, b) →
      pres s t) ∧
    (∀ s o t o2 e b, serverSendConnectionCloseF fuel s o = some (t, o2, e, b) →
      pres s t) ∧
    (∀ s o t o2 e b, clientSendConnectionCloseF fuel s o = some (t, o2, e, b) →
      pres s t) ∧
    (∀ label s o t o2 e b, WritePacketsF fuel label s o = some (t, o2, e, b) →
      pres s t) := by
  intro fuel
  induction fuel with
  | zero =>
    refine ⟨?_, ?_, ?_, ?_⟩ <;> intro a1 a2 a3 a4 a5 a6 <;> intro h <;>
      first
        | exact Option.noConfusion h
        | (intro h2; exact Option.noConfusion h2)
  | succ n ih =>
    obtain ⟨ihS, ihSrv, ihCli, ihWP⟩ := ih
    refine ⟨?_, ?_, ?_, ?_⟩
    · intro s o t o2 e b h
      simp only [SendConnectionCloseF] at h
      split at h
      · exact ihSrv _ _ _ _ _ _ h
      · exact ihCli _ _ _ _ _ _ h
    · intro s o t o2 e b h
      simp only [serverSendConnectionCloseF] at h
      split at h
      · exact Option.noConfusion h
      · split at h
        · simp only [Option.some.injEq, Prod.mk.injEq] at h
          obtain ⟨ht, -⟩ := h
          subst ht
          exact pres_refl _
        · split at h
          · split at h
            · exact Option.noConfusion h
            · rename_i hwp
              simp only [Option.some.injEq, Prod.mk.injEq] at h
              obtain ⟨ht, -⟩ := h
              subst ht
              exact ihWP _ _ _ _ _ _ _ hwp
            · rename_i hwp
              split at h
              · exact Option.noConfusion h
              · rename_i hscp
                simp only [Option.some.injEq, Prod.mk.injEq] at h
                obtain ⟨ht, -⟩ := h
                subst ht
                exact pres_trans (ihWP _ _ _ _ _ _ _ hwp)
                  (pres_StartClosingPeriod hscp)
              · rename_i hscp
                split at h
                · exact Option.noConfusion h
                · rename_i hsb
                  simp only [Option.some.injEq, Prod.mk.injEq] at h
                  obtain ⟨ht, -⟩ := h
                  subst ht
                  exact pres_trans
                    (pres_trans (ihWP _ _ _ _ _ _ _ hwp)
                      (pres_StartClosingPeriod hscp))
                    (pres_serverSendClosebuf hsb)
          · exact pres_serverSendClosebuf h
    · intro s o t o2 e b h
      simp only [clientSendConnectionCloseF] at h
      split at h
      · exact Option.noConfusion h
      · split at h
        · simp only [Option.some.injEq, Prod.mk.injEq] at h
          obtain ⟨ht, -⟩ := h
          subst ht
          exact pres_refl _
        · split at h
          · split at h
            · exact Option.noConfusion h
            · rename_i hwp
              simp only [Option.some.injEq, Prod.mk.injEq] at h
              obtain ⟨ht, -⟩ := h
              subst ht
              exact pres_from (ihWP _ _ _ _ _ _ _ hwp) ⟨rfl, rfl⟩
            · rename_i hwp
              exact pres_from
                (pres_trans (ihWP _ _ _ _ _ _ _ hwp) (pres_clientCloseTail h))
                ⟨rfl, rfl⟩
          · exact pres_from (pres_clientCloseTail h) ⟨rfl, rfl⟩
    · intro label s o t o2 e b h
      simp only [WritePacketsF] at h
      split at h
      · exact Option.noConfusion h
      · split at h
        · exact Option.noConfusion h
        · split at h
          · simp only [Option.some.injEq, Prod.mk.injEq] at h
            obtain ⟨ht, -⟩ := h
            subst ht
            exact pres_refl _
          · split at h
            · exact ihS _ _ _ _ _ _ h
            · split at h
              · exact Option.noConfusion h
              · rename_i hlp
                simp only [Option.some.injEq, Prod.mk.injEq] at h
                obtain ⟨ht, -⟩ := h
                subst ht
                exact pres_writePktLoop _ _ _ _ _ _ _ _ _ hlp

theorem pres_HandleError {s t : QuicSession} {o o2 : Oracle} {e : List Event}
    (h : s.HandleError o = some (t, o2, e)) : pres s t := by
  simp only [QuicSession.HandleError] at h
  split at h
  · exact Option.noConfusion h
  · rename_i hq
    simp only [Option.some.injEq, Prod.mk.injEq] at h
    obtain ⟨ht, -⟩ := h
    subst ht
    exact pres_from ((pres_closeFuel 4).1 _ _ _ _ _ _ hq) ⟨rfl, rfl⟩
  · rename_i hq
    split at h
    · exact Option.noConfusion h
    · rename_i hic
      simp only [Option.some.injEq, Prod.mk.injEq] at h
      obtain ⟨ht, -⟩ := h
      subst ht
      exact pres_from
        (pres_trans ((pres_closeFuel 4).1 _ _ _ _ _ _ hq)
          (pres_from (pres_ImmediateClose hic) ⟨rfl, rfl⟩))
        ⟨rfl, rfl⟩

theorem pres_Destroy {s t : QuicSession} {o o2 : Oracle} {e : List Event}
    (h : s.Destroy o = some (t, o2, e)) : pres s t := by
  simp only [QuicSession.Destroy] at h
  split at h
  · simp only [Option.some.injEq, Prod.mk.injEq] at h
    obtain ⟨ht, -⟩ := h
    subst ht
    exact pres_refl _
  · split at h
    · exact Option.noConfusion h
    · rename_i s1 o1 e1 heq
      split at h
      · exact Option.noConfusion h
      · simp only [Option.some.injEq, Prod.mk.injEq] at h
        obtain ⟨ht, -⟩ := h
        subst ht
        split at heq
        · split at heq
          · exact Option.noConfusion heq
          · rename_i s2 o2a e2a b2 hscc
            simp only [Option.some.injEq, Prod.mk.injEq] at heq
            obtain ⟨hq1, -⟩ := heq
            subst hq1
            exact pres_trans
              (pres_from ((pres_closeFuel 4).1 _ _ _ _ _ _ hscc) ⟨rfl, rfl⟩)
              ⟨rfl, rfl⟩
        · simp only [Option.some.injEq, Prod.mk.injEq] at heq
          obtain ⟨hq1, -⟩ := heq
          subst hq1
          exact ⟨rfl, rfl⟩

theorem pres_AckedCryptoOffset (s : QuicSession) (level : CryptoLevel)
    (datalen now : Nat) : pres s (s.AckedCryptoOffset level datalen now) := by
  unfold QuicSession.AckedCryptoOffset
  split <;> exact ⟨rfl, rfl⟩

theorem pres_ReceiveCryptoData (s : QuicSession) (now : Nat) :
    pres s (s.ReceiveCryptoData now) := by
  simp only [QuicSession.ReceiveCryptoData]
  split
  · exact pres_refl _
  · split <;> exact ⟨rfl, rfl⟩

theorem pres_WriteHandshake (s : QuicSession) (level : CryptoLevel)
    (data : List Nat) (now : Nat) : pres s (s.WriteHandshake level data now) := by
  unfold QuicSession.WriteHandshake
  split <;> exact ⟨rfl, rfl⟩

theorem pres_UpdateKey (s : QuicSession) : pres s s.UpdateKey := by
  unfold QuicSession.UpdateKey
  split <;> exact ⟨rfl, rfl⟩

set_option maxHeartbeats 1000000 in
theorem pres_AddStream (s : QuicSession) (st : QuicStream) :
    pres s (s.AddStream st) := by
  simp only [QuicSession.AddStream]
  repeat' split
  all_goals exact ⟨rfl, rfl⟩

theorem pres_CreateStream {s t : QuicSession} {id : Int} {e : List Event}
    (h : s.CreateStream id = some (t, e)) : pres s t := by
  simp only [QuicSession.CreateStream] at h
  split at h
  · exact Option.noConfusion h
  · simp only [Option.some.injEq, Prod.mk.injEq] at h
    obtain ⟨ht, -⟩ := h
    subst ht
    exact pres_AddStream _ _

theorem pres_ReceiveStreamData {s t : QuicSession} {id : Int} {fin : Bool}
    {datalen : Nat} {e : List Event}
    (h : s.ReceiveStreamData id fin datalen = some (t, e)) : pres s t := by
  simp only [QuicSession.ReceiveStreamData] at h
  repeat' split at h
  all_goals try exact Option.noConfusion h
  all_goals simp only [Option.some.injEq, Prod.mk.injEq] at h
  all_goals obtain ⟨ht, -⟩ := h
  all_goals subst ht
  all_goals first
    | exact pres_refl _
    | (rename_i hq; exact pres_CreateStream hq)

theorem pres_StreamOpen {s t : QuicSession} {id : Int} {e : List Event}
    (h : s.StreamOpen id = (t, e)) : pres s t := by
  simp only [QuicSession.StreamOpen] at h
  split at h <;>
    (simp only [Prod.mk.injEq] at h
     obtain ⟨ht, -⟩ := h
     subst ht
     exact pres_refl _)

theorem pres_StreamClose {s t : QuicSession} {id : Int} {code : Int}
    {e : List Event} (h : s.StreamClose id code = (t, e)) : pres s t := by
  simp only [QuicSession.StreamClose] at h
  repeat' split at h
  all_goals
    simp only [Prod.mk.injEq] at h
  all_goals obtain ⟨ht, -⟩ := h
  all_goals subst ht
  all_goals exact pres_refl _

theorem pres_StreamReset {s t : QuicSession} {id : Int} {finalSize : Nat}
    {code : Int} {e : List Event}
    (h : s.StreamReset id finalSize code = (t, e)) : pres s t := by
  simp only [QuicSession.StreamReset] at h
  repeat' split at h
  all_goals
    simp only [Prod.mk.injEq] at h
  all_goals obtain ⟨ht, -⟩ := h
  all_goals subst ht
  all_goals exact pres_refl _

theorem pres_RemoveStream {s t : QuicSession} {id : Int} {e : List Event}
    (h : s.RemoveStream id = (t, e)) : pres s t := by
  simp only [QuicSession.RemoveStream, Prod.mk.injEq] at h
  obtain ⟨ht, -⟩ := h
  subst ht
  exact ⟨rfl, rfl⟩

theorem pres_HandshakeCompleted {s t : QuicSession} {now : Nat}
    {e : List Event} (h : s.HandshakeCompleted now = (t, e)) : pres s t := by
  simp only [QuicSession.HandshakeCompleted, Prod.mk.injEq] at h
  obtain ⟨ht, -⟩ := h
  subst ht
  exact ⟨rfl, rfl⟩

theorem pres_applyCbOp {s t : QuicSession} {e : List Event} :
    ∀ op : CbOp, applyCbOp s op = some (t, e) → pres s t := by
  intro op h
  cases op <;> simp only [applyCbOp] at h
  case ackedCryptoOffset level datalen now =>
    simp only [Option.some.injEq, Prod.mk.injEq] at h
    obtain ⟨ht, -⟩ := h
    subst ht
    exact pres_AckedCryptoOffset _ _ _ _
  case receiveCryptoData now =>
    simp only [Option.some.injEq, Prod.mk.injEq] at h
    obtain ⟨ht, -⟩ := h
    subst ht
    exact pres_ReceiveCryptoData _ _
  case writeHandshake level data now =>
    simp only [Option.some.injEq, Prod.mk.injEq] at h
    obtain ⟨ht, -⟩ := h
    subst ht
    exact pres_WriteHandshake _ _ _ _
  case receiveStreamData id fin datalen =>
    exact pres_ReceiveStreamData h
  case streamOpen id =>
    have hq : s.StreamOpen id = (t, e) := by
      cases hso : s.StreamOpen id
      simp [hso] at h
      simp [h]
    exact pres_StreamOpen hq
  case streamClose id code =>
    have hq : s.StreamClose id code = (t, e) := by
      cases hso : s.StreamClose id code
      simp [hso] at h
      simp [h]
    exact pres_StreamClose hq
  case streamReset id finalSize code =>
    have hq : s.StreamReset id finalSize code = (t, e) := by
      cases hso : s.StreamReset id finalSize code
      simp [hso] at h
      simp [h]
    exact pres_StreamReset hq
  case removeStream id =>
    have hq : s.RemoveStream id = (t, e) := by
      cases hso : s.RemoveStream id
      simp [hso] at h
      simp [h]
    exact pres_RemoveStream hq
  case handshakeCompleted now =>
    have hq : s.HandshakeCompleted now = (t, e) := by
      cases hso : s.HandshakeCompleted now
      simp [hso] at h
      simp [h]
    exact pres_HandshakeCompleted hq
  case updateKey =>
    simp only [Option.some.injEq, Prod.mk.injEq] at h
    obtain ⟨ht, -⟩ := h
    subst ht
    exact pres_UpdateKey _
  case silentClose statelessReset =>
    exact pres_SilentClose h
  case destroy =>
    split at h
    · exact Option.noConfusion h
    · rename_i hd
      simp only [Option.some.injEq, Prod.mk.injEq] at h
      obtain ⟨ht, -⟩ := h
      subst ht
      exact pres_Destroy hd

theorem pres_applyCbOps :
    ∀ (ops : List CbOp) (s t : QuicSession) (e : List Event),
      applyCbOps s ops = some (t, e) → pres s t := by
  intro ops
  induction ops with
  | nil =>
    intro s t e h
    simp only [applyCbOps, Option.some.injEq, Prod.mk.injEq] at h
    obtain ⟨ht, -⟩ := h
    subst ht
    exact pres_refl _
  | cons op rest ih =>
    intro s t e h
    simp only [applyCbOps] at h
    split at h
    · exact Option.noConfusion h
    · rename_i hop
      split at h
      · exact Option.noConfusion h
      · rename_i hrest
        simp only [Option.some.injEq, Prod.mk.injEq] at h
        obtain ⟨ht, -⟩ := h
        subst ht
        exact pres_trans (pres_applyCbOp _ hop) (ih _ _ _ hrest)

theorem pres_ReceivePacket {s t : QuicSession} {o o2 : Oracle}
    {e : List Event} {b : Bool}
    (h : s.ReceivePacket o = some (t, o2, e, b)) : pres s t := by
  simp only [QuicSession.ReceivePacket] at h
  split at h
  · simp only [Option.some.injEq, Prod.mk.injEq] at h
    obtain ⟨ht, -⟩ := h
    subst ht
    exact pres_refl _
  · split at h
    · exact Option.noConfusion h
    · rename_i s2 e2 hops
      have hpres : pres s s2 :=
        pres_from (pres_applyCbOps _ _ _ _ hops) ⟨rfl, rfl⟩
      split at h
      · split at h
        · simp only [Option.some.injEq, Prod.mk.injEq] at h
          obtain ⟨ht, -⟩ := h
          subst ht
          exact pres_trans hpres ⟨rfl, rfl⟩
        · simp only [Option.some.injEq, Prod.mk.injEq] at h
          obtain ⟨ht, -⟩ := h
          subst ht
          exact pres_trans hpres ⟨rfl, rfl⟩
      · simp only [Option.some.injEq, Prod.mk.injEq] at h
        obtain ⟨ht, -⟩ := h
        subst ht
        exact pres_trans hpres ⟨rfl, rfl⟩

theorem pres_sendStreamDataLoop (sid : Int) (wr : Bool) :
    ∀ (calls : List (Int × Nat)) (v : List Nat) (s : QuicSession) (o : Oracle)
      (t : QuicSession) (o2 : Oracle) (e : List Event) (b : Bool)
      (leftover : List (Int × Nat)),
      sendStreamDataLoop sid wr calls v s o = some (t, o2, e, b, leftover) →
      pres s t := by
  intro calls
  induction calls with
  | nil =>
    intro v s o t o2 e b leftover h
    simp only [sendStreamDataLoop, Option.some.injEq, Prod.mk.injEq] at h
    obtain ⟨ht, -⟩ := h
    subst ht
    exact pres_refl _
  | cons call rest ih =>
    intro v s o t o2 e b leftover h
    obtain ⟨nwrite, ndatalen⟩ := call
    simp only [sendStreamDataLoop] at h
    split at h
    · simp only [Option.some.injEq, Prod.mk.injEq] at h
      obtain ⟨ht, -⟩ := h
      subst ht
      exact pres_refl _
    · split at h
      · split at h
        · exact Option.noConfusion h
        · rename_i s1 e1 hsc
          simp only [Option.some.injEq, Prod.mk.injEq] at h
          obtain ⟨ht, -⟩ := h
          subst ht
          exact pres_SilentClose hsc
      · split at h
        · simp only [Option.some.injEq, Prod.mk.injEq] at h
          obtain ⟨ht, -⟩ := h
          subst ht
          exact pres_refl _
        · split at h
          · simp only [Option.some.injEq, Prod.mk.injEq] at h
            obtain ⟨ht, -⟩ := h
            subst ht
            exact ⟨rfl, rfl⟩
          · by_cases hnd : 0 < ndatalen
            all_goals
              first
                | simp only [if_pos hnd] at h
                | simp only [if_neg hnd] at h
            all_goals
              split at h
              · exact Option.noConfusion h
              · rename_i s3 o3 e3 hsp
                simp only [Option.some.injEq, Prod.mk.injEq] at h
                obtain ⟨ht, -⟩ := h
                subst ht
                exact pres_SendPacket_from hsp ⟨rfl, rfl⟩
              · rename_i s3 o3 e3 hsp
                split at h
                · split at h <;>
                    (simp only [Option.some.injEq, Prod.mk.injEq] at h
                     obtain ⟨ht, -⟩ := h
                     subst ht)
                  · exact pres_SendPacket_from hsp ⟨rfl, rfl⟩
                  · exact pres_trans (pres_SendPacket_from hsp ⟨rfl, rfl⟩)
                      ⟨rfl, rfl⟩
                · split at h
                  · exact Option.noConfusion h
                  · rename_i s5 o5 e5 b5 l5 hrec
                    simp only [Option.some.injEq, Prod.mk.injEq] at h
                    obtain ⟨ht, -⟩ := h
                    subst ht
                    exact pres_trans (pres_SendPacket_from hsp ⟨rfl, rfl⟩)
                      (ih _ _ _ _ _ _ _ _ hrec)

theorem pres_SendStreamData {s t : QuicSession} {sid : Int} {o o2 : Oracle}
    {e : List Event} {b : Bool}
    (h : s.SendStreamData sid o = some (t, o2, e, b)) : pres s t := by
  simp only [QuicSession.SendStreamData] at h
  repeat' split at h
  all_goals try exact Option.noConfusion h
  all_goals simp only [Option.some.injEq, Prod.mk.injEq] at h
  all_goals obtain ⟨ht, -⟩ := h
  all_goals subst ht
  all_goals first
    | exact pres_refl _
    | (rename_i hq; exact pres_sendStreamDataLoop _ _ _ _ _ _ _ _ _ _ _ hq)

theorem pres_sendStreamsPhase :
    ∀ (ids : List Int) (s : QuicSession) (o : Oracle) (t : QuicSession)
      (o2 : Oracle) (e : List Event) (ex : PhaseExit),
      sendStreamsPhase ids s o = some (t, o2, e, ex) → pres s t := by
  intro ids
  induction ids with
  | nil =>
    intro s o t o2 e ex h
    simp only [sendStreamsPhase, Option.some.injEq, Prod.mk.injEq] at h
    obtain ⟨ht, -⟩ := h
    subst ht
    exact pres_refl _
  | cons sid rest ih =>
    intro s o t o2 e ex h
    simp only [sendStreamsPhase] at h
    split at h
    · exact Option.noConfusion h
    · rename_i s1 o1 e1 hsd
      simp only [Option.some.injEq, Prod.mk.injEq] at h
      obtain ⟨ht, -⟩ := h
      subst ht
      exact pres_SendStreamData hsd
    · rename_i s1 o1 e1 hsd
      split at h
      · simp only [Option.some.injEq, Prod.mk.injEq] at h
        obtain ⟨ht, -⟩ := h
        subst ht
        exact pres_SendStreamData hsd
      · split at h
        · exact Option.noConfusion h
        · rename_i s2 o2a e2a ex2 hrec
          simp only [Option.some.injEq, Prod.mk.injEq] at h
          obtain ⟨ht, -⟩ := h
          subst ht
          exact pres_trans (pres_SendStreamData hsd) (ih _ _ _ _ _ _ hrec)

theorem pres_SendPendingData {s t : QuicSession} {o o2 : Oracle}
    {e : List Event} (h : s.SendPendingData o = some (t, o2, e)) :
    pres s t := by
  simp only [QuicSession.SendPendingData] at h
  split at h
  · simp only [Option.some.injEq, Prod.mk.injEq] at h
    obtain ⟨ht, -⟩ := h
    subst ht
    exact pres_refl _
  · split at h
    · exact Option.noConfusion h
    · rename_i s1 o1 e1 hsp
      split at h
      · exact Option.noConfusion h
      · rename_i s2 o2a e2a hhe
        simp only [Option.some.injEq, Prod.mk.injEq] at h
        obtain ⟨ht, -⟩ := h
        subst ht
        exact pres_trans (pres_SendPacket hsp) (pres_HandleError hhe)
    · rename_i s1 o1 e1 hsp
      split at h
      · exact Option.noConfusion h
      · rename_i s2 o2a e2a hph
        split at h
        · exact Option.noConfusion h
        · rename_i s3 o3a e3a hhe
          simp only [Option.some.injEq, Prod.mk.injEq] at h
          obtain ⟨ht, -⟩ := h
          subst ht
          exact pres_trans (pres_SendPacket hsp)
            (pres_trans (pres_sendStreamsPhase _ _ _ _ _ _ _ hph)
              (pres_HandleError hhe))
      · rename_i s2 o2a e2a hph
        simp only [Option.some.injEq, Prod.mk.injEq] at h
        obtain ⟨ht, -⟩ := h
        subst ht
        exact pres_trans (pres_SendPacket hsp)
          (pres_sendStreamsPhase _ _ _ _ _ _ _ hph)
      · rename_i s2 o2a e2a hph
        split at h
        · exact Option.noConfusion h
        · rename_i s3 o3a e3a hwp
          split at h
          · exact Option.noConfusion h
          · rename_i s4 o4a e4a hhe
            simp only [Option.some.injEq, Prod.mk.injEq] at h
            obtain ⟨ht, -⟩ := h
            subst ht
            exact pres_trans (pres_SendPacket hsp)
              (pres_trans (pres_sendStreamsPhase _ _ _ _ _ _ _ hph)
                (pres_trans ((pres_closeFuel 4).2.2.2 _ _ _ _ _ _ _ hwp)
                  (pres_HandleError hhe)))
        · rename_i s3 o3a e3a hwp
          simp only [Option.some.injEq, Prod.mk.injEq] at h
          obtain ⟨ht, -⟩ := h
          subst ht
          exact pres_trans (pres_SendPacket hsp)
            (pres_trans (pres_sendStreamsPhase _ _ _ _ _ _ _ hph)
              ((pres_closeFuel 4).2.2.2 _ _ _ _ _ _ _ hwp))

/-! Behaviour of the connection-close senders and packet writer in
the draining period. -/

theorem SendConnectionCloseF_four (s : QuicSession) (o : Oracle) :
    SendConnectionCloseF 4 s o =
      (match s.side with
       | .server => serverSendConnectionCloseF 3 s o
       | .client => clientSendConnectionCloseF 3 s o) := rfl

theorem serverSCCF_draining (fuel : Nat) (s : QuicSession) (o : Oracle)
    (hc : s.in_ngtcp2_callback = false)
    (hp : s.period = Period.draining ∨ s.silent_close = true) :
    serverSendConnectionCloseF (fuel + 1) s o = some (s, o, [], true) := by
  simp only [serverSendConnectionCloseF]
  rw [if_neg (by simp [hc]), if_pos hp]

theorem clientSCCF_draining (fuel : Nat) (s : QuicSession) (o : Oracle)
    (hc : s.in_ngtcp2_callback = false)
    (hp : s.period = Period.draining ∨ s.silent_close = true) :
    clientSendConnectionCloseF (fuel + 1) s o = some (s, o, [], true) := by
  simp only [clientSendConnectionCloseF]
  rw [if_neg (by simp [hc]), if_pos hp]

theorem WPF_draining (fuel : Nat) (label : String) (s : QuicSession)
    (o : Oracle) (hc : s.in_ngtcp2_callback = false)
    (hd : s.destroyed = false) (hp : s.period = Period.draining) :
    WritePacketsF (fuel + 1) label s o = some (s, o, [], true) := by
  simp only [WritePacketsF]
  rw [if_neg (by simp [hc]), if_neg (by simp [hd]), if_pos hp]

/-- C5: for every acknowledgement of B crypto bytes at level L
delivered to a non-destroyed session, AckedCryptoOffset consumes
exactly B bytes from the head of the crypto-level buffer for L (the
oldest bytes are freed first, so the buffer becomes its former
content with the first B bytes dropped and its length shrinks by
exactly B), the buffers at the other two levels are unchanged, and on
a destroyed session the acknowledgement is ignored. -/
theorem C5_acked_crypto_consumes_head (s : QuicSession) (L : CryptoLevel)
    (B now : Nat) (hd : s.destroyed = false)
    (hB : B ≤ (s.bufs.get L).length) :
    ((s.AckedCryptoOffset L B now).bufs.get L = (s.bufs.get L).drop B ∧
      ((s.AckedCryptoOffset L B now).bufs.get L).length + B =
        (s.bufs.get L).length) ∧
    (∀ L2, L2 ≠ L →
      (s.AckedCryptoOffset L B now).bufs.get L2 = s.bufs.get L2) ∧
    (∀ t : QuicSession, t.destroyed = true →
      t.AckedCryptoOffset L B now = t) := by
  refine ⟨⟨?_, ?_⟩, ?_, ?_⟩
  · cases L <;>
      simp [QuicSession.AckedCryptoOffset, hd, QuicBuffer.Consume,
        CryptoBufs.get, CryptoBufs.set]
  · cases L <;>
      simp [QuicSession.AckedCryptoOffset, hd, QuicBuffer.Consume,
        CryptoBufs.get, CryptoBufs.set] <;>
      simp [CryptoBufs.get] at hB <;> omega
  · intro L2 hne
    cases L <;> cases L2 <;> simp_all <;>
      simp [QuicSession.AckedCryptoOffset, hd, CryptoBufs.get,
        CryptoBufs.set]
  · intro t ht
    simp [QuicSession.AckedCryptoOffset, ht]

/-- Session used as the concrete instance for the C5 witness. -/
def sessionC5 : QuicSession :=
  { side := .server
    bufs := { handshakeData := [10, 11, 12], appData := [7] } }

/-- Witness for C5 at a concrete session: two of three buffered
handshake-level bytes are acknowledged. -/
theorem C5_witness :
    (sessionC5.AckedCryptoOffset .handshake 2 9).bufs.get .handshake =
      (sessionC5.bufs.get .handshake).drop 2 ∧
    (sessionC5.AckedCryptoOffset .handshake 2 9).bufs.get .application =
      sessionC5.bufs.get .application :=
  ⟨(C5_acked_crypto_consumes_head sessionC5 .handshake 2 9 rfl
      (by decide)).1.1,
   (C5_acked_crypto_consumes_head sessionC5 .handshake 2 9 rfl
      (by decide)).2.1 .application (by decide)⟩

/-- Session used as the concrete instance for the C6 theorems. -/
def sessionC6 : QuicSession := { side := .client }

/-- C6 counterexample: with expiry 5 ms after now, the re-armed idle
timeout is 5 ms, not min(1 ms, expiry − now) — the claimed formula
yields 1 ms whether the difference is read in milliseconds or in
nanoseconds. -/
theorem C6_min_formula_counterexample :
    (sessionC6.UpdateIdleTimer 0 5000000).idleTimer = some 5 ∧
    (5 : Nat) ≠ min 1 ((5000000 - 0) / 1000000) ∧
    (5 : Nat) ≠ min 1000000 (5000000 - 0) := by
  refine ⟨?_, by decide, by decide⟩
  decide

/-- C6 (amended): whenever the idle timer is re-armed, the new
single-shot timeout is the number of whole milliseconds until the
transport library idle expiry, clamped below to 1 ms — that is,
max(1 ms, (expiry − now)/1 ms), and 1 ms whenever the expiry is
already past (both values are uint64 nanosecond readings). -/
theorem C6_idle_timer_max_one_ms (s : QuicSession) (now expiry : Nat)
    (hn : now < 18446744073709551616) (he : expiry < 18446744073709551616) :
    (s.UpdateIdleTimer now expiry).idleTimer =
      some (if expiry < now then 1 else max 1 ((expiry - now) / 1000000)) := by
  simp only [QuicSession.UpdateIdleTimer]
  rcases Nat.lt_or_ge expiry now with h | h
  · simp [h]
  · have hnlt : ¬ expiry < now := Nat.not_lt.mpr h
    have hsub : expiry + 18446744073709551616 - now =
        (expiry - now) + 18446744073709551616 := by omega
    have hmod : (expiry + 18446744073709551616 - now) %
        18446744073709551616 = expiry - now := by
      rw [hsub, Nat.add_mod_right, Nat.mod_eq_of_lt (by omega)]
    rw [hmod]
    rcases Nat.eq_zero_or_pos ((expiry - now) / 1000000) with h0 | h0
    · simp [hnlt, h0]
    · simp only [hnlt, Nat.ne_of_gt h0, if_false, or_false, if_neg,
        Option.some.injEq]
      omega

/-- Witness for the amended C6 at a concrete reading: expiry 5 ms
ahead of now yields a 5 ms timeout. -/
theorem C6_witness :
    (sessionC6.UpdateIdleTimer 0 5000000).idleTimer =
      some (if (5000000 : Nat) < 0 then 1
        else max 1 ((5000000 - 0) / 1000000)) :=
  C6_idle_timer_max_one_ms sessionC6 0 5000000 (by decide) (by decide)

/-- Server session used as the concrete instance for C7. -/
def sessionC7 : QuicSession := { side := .server }

/-- Peer-initiated (client-origin) stream on the server session. -/
def peerStreamC7 : QuicStream :=
  { id := 0, origin := .client, direction := .bidirectional }

/-- Locally-initiated (server-origin) stream on the server session. -/
def localStreamC7 : QuicStream :=
  { id := 3, origin := .server, direction := .unidirectional }

/-- C7: evaluation of AddStream at the failing inputs.  Adding a
peer-initiated stream to a server session increments
streams_in_count, but streams_out_count is incremented as well (the
unconditional increment after the origin switch), and adding a
locally-initiated stream increments streams_out_count by two — so
origin-based counting, under which no added stream increases both
counters and each counter moves by exactly one, does not hold. -/
theorem C7_streams_out_overcounted :
    ((sessionC7.AddStream peerStreamC7).stats.streams_in_count = 1 ∧
     (sessionC7.AddStream peerStreamC7).stats.streams_out_count = 1) ∧
    (sessionC7.AddStream localStreamC7).stats.streams_out_count = 2 := by
  decide

/-- C8: a STREAM frame with zero data length and no fin flag for a
stream id that is not in the session's stream table is dropped
outright: the session state (in particular the stream table) is
unchanged and no event is emitted. -/
theorem C8_empty_nonfin_frame_dropped (s : QuicSession) (id : Int)
    (_hu : s.findStream id = none) :
    s.ReceiveStreamData id false 0 = some (s, []) := by
  simp [QuicSession.ReceiveStreamData]

/-- Session used as the concrete instance for the C8 witness: its
table holds stream 4, and the frame arrives for the unknown id 8. -/
def sessionC8 : QuicSession :=
  { side := .server, streams := [mkStream 4] }

/-- Witness for C8 at a concrete session and unknown stream id. -/
theorem C8_witness : sessionC8.ReceiveStreamData 8 false 0 =
    some (sessionC8, []) :=
  C8_empty_nonfin_frame_dropped sessionC8 8 (by decide)

/-- C2: while a session is in the draining period no outbound byte is
transmitted.  Receive records the received bytes and returns success
without any event; WritePackets returns success immediately with the
session unchanged; SendConnectionClose (server or client override)
returns success without pushing any packet to the send path. -/
theorem C2_draining_no_outbound (s : QuicSession) (nread addr : Nat)
    (o : Oracle) (label : String) (hd : s.destroyed = false)
    (hc : s.in_ngtcp2_callback = false) (hp : s.period = Period.draining) :
    s.Receive nread addr o =
      some ({ s with stats :=
        { s.stats with bytes_received := s.stats.bytes_received + nread } },
        o, [], true) ∧
    s.WritePackets label o = some (s, o, [], true) ∧
    s.SendConnectionClose o = some (s, o, [], true) := by
  refine ⟨?_, ?_, ?_⟩
  · simp [QuicSession.Receive, hd, hp]
  · exact WPF_draining 3 label s o hc hd hp
  · show SendConnectionCloseF 4 s o = _
    rw [SendConnectionCloseF_four]
    cases hs : s.side
    · simp only
      exact serverSCCF_draining 2 s o hc (Or.inl hp)
    · simp only
      exact clientSCCF_draining 2 s o hc (Or.inl hp)

/-- Session used as the concrete instance for the C2 witness. -/
def sessionC2 : QuicSession := { side := .server, period := .draining }

/-- Witness for C2 at a concrete draining server session. -/
theorem C2_witness :
    sessionC2.Receive 5 0 defaultOracle =
      some ({ sessionC2 with stats :=
        { sessionC2.stats with
          bytes_received := sessionC2.stats.bytes_received + 5 } },
        defaultOracle, [], true) ∧
    sessionC2.WritePackets "test" defaultOracle =
      some (sessionC2, defaultOracle, [], true) ∧
    sessionC2.SendConnectionClose defaultOracle =
      some (sessionC2, defaultOracle, [], true) :=
  C2_draining_no_outbound sessionC2 5 0 defaultOracle "test" rfl rfl rfl

/-- C1: for every packet handed to Receive on a non-destroyed session
in the closing period, the close-attempt counter is incremented; when
the incremented counter has reached the threshold, nothing is sent
and Receive returns false; and whenever any packet is handed to the
send path the incremented counter was below the threshold. -/
theorem C1_closing_bounded_resend (s : QuicSession) (nread addr : Nat)
    (o : Oracle) (hd : s.destroyed = false)
    (hp : s.period = Period.closing) :
    (¬ s.closeAttempts + 1 < s.connectionCloseLimit →
      s.Receive nread addr o =
        some ({ s with
          stats := { s.stats with
            bytes_received := s.stats.bytes_received + nread },
          closeAttempts := s.closeAttempts + 1 }, o, [], false)) ∧
    (∀ t o2 evs ok, s.Receive nread addr o = some (t, o2, evs, ok) →
      t.closeAttempts = s.closeAttempts + 1 ∧
      (sentPackets evs ≠ [] →
        s.closeAttempts + 1 < s.connectionCloseLimit)) := by
  constructor
  · intro hno
    simp [QuicSession.Receive, hd, hp,
      QuicSession.IncrementConnectionCloseAttempts,
      QuicSession.ShouldAttemptConnectionClose, hno]
  · intro t o2 evs ok h
    simp only [QuicSession.Receive, hd, Bool.false_eq_true, if_false] at h
    rw [if_pos (by simp [hp])] at h
    split at h
    · simp only [Option.some.injEq, Prod.mk.injEq] at h
      obtain ⟨ht, -, hevs, -⟩ := h
      subst ht
      subst hevs
      refine ⟨rfl, ?_⟩
      intro hne
      exact absurd rfl hne
    · rename_i hcond
      have hpres :=
        (pres_closeFuel 4).1 _ _ _ _ _ _ h
      refine ⟨hpres.1, ?_⟩
      intro _
      simp only [QuicSession.IncrementConnectionCloseAttempts,
        QuicSession.ShouldAttemptConnectionClose, not_not,
        decide_eq_true_eq] at hcond
      exact hcond

/-- Session used as the concrete instance for the C1 witness: two
close attempts already made against a threshold of two. -/
def sessionC1 : QuicSession :=
  { side := .server, period := .closing, closeAttempts := 2,
    connectionCloseLimit := 2 }

/-- Witness for C1 at a concrete closing session whose attempt
counter has reached the threshold: the counter still increments,
nothing is sent and Receive returns false. -/
theorem C1_witness :
    sessionC1.Receive 7 0 defaultOracle =
      some ({ sessionC1 with
        stats := { sessionC1.stats with
          bytes_received := sessionC1.stats.bytes_received + 7 },
        closeAttempts := sessionC1.closeAttempts + 1 },
        defaultOracle, [], false) :=
  (C1_closing_bounded_resend sessionC1 7 0 defaultOracle rfl rfl).1
    (by decide)

/-- C9: Destroy is idempotent.  Whenever a Destroy call completes it
leaves the session marked destroyed, and a second Destroy call on the
resulting session returns immediately with the state unchanged and no
observable effect. -/
theorem C9_destroy_idempotent (s t : QuicSession) (o o2 o3 : Oracle)
    (evs : List Event) (h : s.Destroy o = some (t, o2, evs)) :
    t.destroyed = true ∧ t.Destroy o3 = some (t, o3, []) := by
  have ht : t.destroyed = true := by
    simp only [QuicSession.Destroy] at h
    split at h
    · rename_i hdes
      simp only [Option.some.injEq, Prod.mk.injEq] at h
      obtain ⟨h1, -⟩ := h
      subst h1
      exact hdes
    · split at h
      · exact Option.noConfusion h
      · split at h
        · exact Option.noConfusion h
        · simp only [Option.some.injEq, Prod.mk.injEq] at h
          obtain ⟨h1, -⟩ := h
          subst h1
          rfl
  exact ⟨ht, by simp [QuicSession.Destroy, ht]⟩

/-- Session used as the concrete instance for the C9 witness; the
Destroy call runs inside an ngtcp2 callback, so no close is sent. -/
def sessionC9 : QuicSession := { side := .client, in_ngtcp2_callback := true }

/-- The session after the first Destroy call of the C9 witness. -/
def sessionC9after : QuicSession :=
  { side := .client, in_ngtcp2_callback := true, destroyed := true,
    onSocket := false }

/-- Witness for C9: a concrete first Destroy call, and the second
call returning immediately without effect. -/
theorem C9_witness :
    sessionC9.Destroy defaultOracle =
      some (sessionC9after, defaultOracle, []) ∧
    sessionC9after.Destroy defaultOracle =
      some (sessionC9after, defaultOracle, []) :=
  ⟨by decide,
   (C9_destroy_idempotent sessionC9 sessionC9after defaultOracle
      defaultOracle defaultOracle [] (by decide)).2⟩

/-- C3: SendPendingData is a no-op whenever the call occurs inside an
ngtcp2 callback, the session is destroyed, the session is draining,
or the session is a server in the closing period; otherwise it first
flushes the send buffer, then serializes the streams of the table in
insertion order, then emits the remaining non-stream packets, and on
the success path the observable output is exactly the concatenation
of the three phases. -/
theorem C3_send_pending_data_phases (s : QuicSession) (o : Oracle) :
    ((s.in_ngtcp2_callback ∨ s.destroyed ∨ s.period = Period.draining ∨
        (s.side = Side.server ∧ s.period = Period.closing)) →
      s.SendPendingData o = some (s, o, [])) ∧
    (∀ s1 o1 e1 s2 o2 e2 s3 o3 e3,
      ¬(s.in_ngtcp2_callback ∨ s.destroyed ∨ s.period = Period.draining ∨
        (s.side = Side.server ∧ s.period = Period.closing)) →
      s.SendPacket o "pending session data" = some (s1, o1, e1, true) →
      sendStreamsPhase (s1.streams.map QuicStream.id) s1 o1 =
        some (s2, o2, e2, PhaseExit.done) →
      WritePacketsF 4 "pending session data - write packets" s2 o2 =
        some (s3, o3, e3, true) →
      s.SendPendingData o = some (s3, o3, e1 ++ e2 ++ e3)) := by
  constructor
  · intro hg
    simp only [QuicSession.SendPendingData]
    rw [if_pos hg]
  · intro s1 o1 e1 s2 o2 e2 s3 o3 e3 hng hflush hphase hwp
    simp only [QuicSession.SendPendingData]
    rw [if_neg hng, hflush]
    simp only [hphase, hwp]

/-- Session used as the concrete instance for the C3 witness. -/
def sessionC3 : QuicSession := { side := .client }

/-- Witness for C3: a session outside every no-op condition whose
three phases each succeed trivially. -/
theorem C3_witness :
    sessionC3.SendPendingData defaultOracle =
      some (sessionC3, defaultOracle, [] ++ [] ++ []) :=
  (C3_send_pending_data_phases sessionC3 defaultOracle).2
    sessionC3 defaultOracle [] sessionC3 defaultOracle [] sessionC3
    defaultOracle [] (by decide) (by decide) (by decide) (by decide)

/-- C4: dispatch of the per-stream write loop on the return value of
the transport library writev call.  Zero stops serialization for the
stream with success; PKT_NUM_EXHAUSTED silent-closes (on a session
whose closing flag is not yet set) and returns failure;
STREAM_DATA_BLOCKED, STREAM_SHUT_WR and STREAM_NOT_FOUND skip the
stream with success; any other negative value is recorded in the
session last error and returns failure. -/
theorem C4_writev_result_dispatch (sid : Int) (wr : Bool) (nwrite : Int)
    (ndatalen : Nat) (rest : List (Int × Nat)) (v : List Nat)
    (s : QuicSession) (o : Oracle) :
    (nwrite = 0 →
      sendStreamDataLoop sid wr ((nwrite, ndatalen) :: rest) v s o =
        some (s, o, [], true, rest)) ∧
    (nwrite = NGTCP2_ERR_PKT_NUM_EXHAUSTED → s.closing = false →
      sendStreamDataLoop sid wr ((nwrite, ndatalen) :: rest) v s o =
        some ({ s with silent_close := true, closing := true }, o,
          [Event.sessionSilentClose false s.lastError.2], false, rest)) ∧
    ((nwrite = NGTCP2_ERR_STREAM_DATA_BLOCKED ∨
        nwrite = NGTCP2_ERR_STREAM_SHUT_WR ∨
        nwrite = NGTCP2_ERR_STREAM_NOT_FOUND) →
      sendStreamDataLoop sid wr ((nwrite, ndatalen) :: rest) v s o =
        some (s, o, [], true, rest)) ∧
    (nwrite < 0 → nwrite ≠ NGTCP2_ERR_PKT_NUM_EXHAUSTED →
      nwrite ≠ NGTCP2_ERR_STREAM_DATA_BLOCKED →
      nwrite ≠ NGTCP2_ERR_STREAM_SHUT_WR →
      nwrite ≠ NGTCP2_ERR_STREAM_NOT_FOUND →
      sendStreamDataLoop sid wr ((nwrite, ndatalen) :: rest) v s o =
        some (s.SetLastError .session nwrite, o, [], false, rest)) := by
  refine ⟨?_, ?_, ?_, ?_⟩
  · intro h0
    subst h0
    simp [sendStreamDataLoop]
  · intro hx hcl
    subst hx
    simp [sendStreamDataLoop, NGTCP2_ERR_PKT_NUM_EXHAUSTED,
      QuicSession.SilentClose, hcl]
  · intro hx
    rcases hx with hx | hx | hx <;> subst hx <;>
      simp [sendStreamDataLoop, NGTCP2_ERR_STREAM_DATA_BLOCKED,
        NGTCP2_ERR_STREAM_SHUT_WR, NGTCP2_ERR_STREAM_NOT_FOUND,
        NGTCP2_ERR_PKT_NUM_EXHAUSTED]
  · intro hlt hne1 hne2 hne3 hne4
    have h0 : ¬ nwrite = 0 := by omega
    simp [sendStreamDataLoop, h0, hne1, hne2, hne3, hne4, hlt]

/-- Session used as the concrete instance for the C4 witness. -/
def sessionC4 : QuicSession := { side := .server }

/-- Witness for C4 at concrete loop inputs: a zero writev result
stops with success, and a PKT_NUM_EXHAUSTED result silent-closes and
fails. -/
theorem C4_witness :
    sendStreamDataLoop 0 true [((0 : Int), (0 : Nat))] [5] sessionC4
      defaultOracle = some (sessionC4, defaultOracle, [], true, []) ∧
    sendStreamDataLoop 0 true [(NGTCP2_ERR_PKT_NUM_EXHAUSTED, (0 : Nat))]
      [5] sessionC4 defaultOracle =
      some ({ sessionC4 with silent_close := true, closing := true },
        defaultOracle,
        [Event.sessionSilentClose false sessionC4.lastError.2],
        false, []) :=
  ⟨(C4_writev_result_dispatch 0 true 0 0 [] [5] sessionC4
      defaultOracle).1 rfl,
   (C4_writev_result_dispatch 0 true NGTCP2_ERR_PKT_NUM_EXHAUSTED 0 []
      [5] sessionC4 defaultOracle).2.1 rfl rfl⟩

/-- C10: every call to Receive with nread bytes on a non-destroyed
session increases bytes_received by exactly nread, on every path —
including packets dropped in the closing or draining period; on an
already-destroyed session Receive returns false and the state is
unchanged. -/
theorem C10_receive_counts_bytes (s : QuicSession) (nread addr : Nat)
    (o : Oracle) :
    (s.destroyed = false →
      ∀ t o2 evs ok, s.Receive nread addr o = some (t, o2, evs, ok) →
        t.stats.bytes_received = s.stats.bytes_received + nread) ∧
    (s.destroyed = true → s.Receive nread addr o = some (s, o, [], false)) := by
  constructor
  · intro hd t o2 evs ok h
    simp only [QuicSession.Receive, hd, Bool.false_eq_true, if_false] at h
    split at h
    · split at h
      · simp only [Option.some.injEq, Prod.mk.injEq] at h
        obtain ⟨ht, -⟩ := h
        subst ht
        rfl
      · exact ((pres_closeFuel 4).1 _ _ _ _ _ _ h).2
    · split at h
      · simp only [Option.some.injEq, Prod.mk.injEq] at h
        obtain ⟨ht, -⟩ := h
        subst ht
        rfl
      · split at h
        · exact Option.noConfusion h
        · rename_i s3 o3 e3 hrp
          have hp3 : s3.stats.bytes_received =
              s.stats.bytes_received + nread :=
            (pres_ReceivePacket hrp).2
          split at h
          · split at h
            · exact Option.noConfusion h
            · rename_i s4 o4 e4 hhe
              simp only [Option.some.injEq, Prod.mk.injEq] at h
              obtain ⟨ht, -⟩ := h
              subst ht
              exact ((pres_HandleError hhe).2).trans hp3
          · split at h
            · exact Option.noConfusion h
            · rename_i s5 o5 e5 b5 hscc
              simp only [Option.some.injEq, Prod.mk.injEq] at h
              obtain ⟨ht, -⟩ := h
              subst ht
              exact (((pres_closeFuel 4).1 _ _ _ _ _ _ hscc).2).trans hp3
        · rename_i s3 o3 e3 hrp
          have hp3 : s3.stats.bytes_received =
              s.stats.bytes_received + nread :=
            (pres_ReceivePacket hrp).2
          split at h
          · split at h
            · split at h
              · exact Option.noConfusion h
              · rename_i s4 o4 e4 b4 hscc
                simp only [Option.some.injEq, Prod.mk.injEq] at h
                obtain ⟨ht, -⟩ := h
                subst ht
                exact (((pres_closeFuel 4).1 _ _ _ _ _ _ hscc).2).trans hp3
            · simp only [Option.some.injEq, Prod.mk.injEq] at h
              obtain ⟨ht, -⟩ := h
              subst ht
              exact hp3
          · split at h
            · split at h
              · exact Option.noConfusion h
              · rename_i s4 e4 hsc
                simp only [Option.some.injEq, Prod.mk.injEq] at h
                obtain ⟨ht, -⟩ := h
                subst ht
                exact ((pres_SilentClose hsc).2).trans hp3
            · split at h
              · exact Option.noConfusion h
              · rename_i s4 o4 e4 hspd
                simp only [Option.some.injEq, Prod.mk.injEq] at h
                obtain ⟨ht, -⟩ := h
                subst ht
                exact ((pres_SendPendingData hspd).2).trans hp3
  · intro hd
    simp [QuicSession.Receive, hd]

/-- Session used as the concrete instance for the C10 witness. -/
def sessionC10 : QuicSession := { side := .client, period := .draining }

/-- Witness for C10: a concrete non-destroyed session receiving five
bytes while draining counts them even though the packet is dropped. -/
theorem C10_witness :
    ({ sessionC10 with stats := { sessionC10.stats with
        bytes_received := sessionC10.stats.bytes_received + 5 } }
      : QuicSession).stats.bytes_received =
      sessionC10.stats.bytes_received + 5 :=
  (C10_receive_counts_bytes sessionC10 5 0 defaultOracle).1 rfl
    _ defaultOracle [] true (by decide)

end Quic
